import Mathlib

/-
Shallow embedding of the wordgamestui client (src/main.go): the Bubble Tea
session model, its Update function, the websocket frame decoder
(listenToWsServer), and the outbound write path (sendToWsServer).

External library calls are modelled explicitly:
  * `time.Parse(time.RFC3339, s)` is a parameter `parse : String → Option Int`
    (absolute instants are integers, in milliseconds).
  * `time.Now()` is a parameter `now : Int`.
  * a Go type assertion `x.(T)` that fails panics and kills the program; a
    function that can panic returns `Option`, with `none` meaning the panic.
  * the bubbles timer model is the triple (timeout, interval, running); the
    bubbles textinput model is (value, placeholder), and its Update inserts
    printable single-character keys and ignores every other message.
-/

namespace Wordgamestui

/-- JSON values, as decoded by wsjson.Read into `map[string]interface{}`. -/
inductive Json where
  | null : Json
  | bool (b : Bool) : Json
  | num (n : Int) : Json
  | str (s : String) : Json
  | arr (elems : List Json) : Json
  | obj (fields : List (String × Json)) : Json

/-- A decoded JSON object (`map[string]any` in the Go source). -/
abbrev JsonObj := List (String × Json)

/-- Go map lookup `v[key]`: `none` models the `nil` result for a missing key. -/
def lookupJ : JsonObj → String → Option Json
  | [], _ => none
  | (k, x) :: rest, key => if k = key then some x else lookupJ rest key

/-- Go type assertion `x.(string)`: `none` is the panic on a non-string. -/
def asString : Json → Option String
  | .str s => some s
  | _ => none

/-- Go type assertion `x.(map[string]any)`: `none` is the panic. -/
def asObj : Json → Option JsonObj
  | .obj o => some o
  | _ => none

/-- bubbles `timer.Model`: remaining timeout (ms), tick interval (ms),
and whether the timer was started. The zero value is all zeroes. -/
structure TimerModel where
  timeout : Int
  interval : Int
  running : Bool
  deriving Repr, DecidableEq

/-- bubbles `textinput.Model`, reduced to its observable state. -/
structure TextInput where
  value : String
  placeholder : String
  deriving Repr, DecidableEq

/-- The session model of src/main.go (`type model struct`); `connected`
stands for `m.conn != nil`. -/
structure Model where
  connected : Bool
  err : Option String
  timer : TimerModel
  textInput : TextInput
  chatMessages : List String
  wordBoxGuide : String
  wordBox : String
  deriving Repr, DecidableEq

/-- The tea.Msg values exchanged in src/main.go. -/
inductive Msg where
  | key (k : String)
  | tick
  | initConn
  | errM (e : String)
  | successSent
  | wsChat (content : String)
  | wsOngoingRound (content : JsonObj)
  | wsFinishedRound (content : JsonObj)
  | wsFinishedGame
  | wsPong
  | wsErr (e : String)

/-- The tea.Cmd values the model issues. `listen` is
`listenToWsServer(ctx, conn)`, `ping` is `periodicallyPingWsServer`,
`timerInit` is `m.timer.Init()`, `timerTick` the timer's next tick. -/
inductive Cmd where
  | quit
  | clearScreen
  | blink
  | connect
  | listen
  | ping
  | send (payload : String)
  | timerInit
  | timerTick
  deriving Repr, DecidableEq

/-- `chatMessagesMax` constant of src/main.go. -/
def chatMessagesMax : Nat := 12

/-- `initialModel()`: unconnected, zero-value timer, placeholder
"connecting...", guide text "WAITING ROUND START!". -/
def initialModel : Model :=
  { connected := false
    err := none
    timer := { timeout := 0, interval := 0, running := false }
    textInput := { value := "", placeholder := "connecting..." }
    chatMessages := []
    wordBoxGuide := "WAITING ROUND START!"
    wordBox := "" }

/-- `Init()`: clear screen, cursor blink, dial the server. No read yet. -/
def InitCmds : List Cmd := [Cmd.clearScreen, Cmd.blink, Cmd.connect]

/-- bubbles textinput Update: inserts a printable single-character key at the
end of the value; every other key ("enter", "ctrl+e", ...) and every
non-key message leaves the widget unchanged. -/
def textInputUpdate (ti : TextInput) (msg : Msg) : TextInput :=
  match msg with
  | .key k => if k.length = 1 then { ti with value := ti.value ++ k } else ti
  | _ => ti

/-- The trailing `m.textInput, cmd = m.textInput.Update(msg)` of Update. -/
def textInputStep (m : Model) (msg : Msg) : Model :=
  { m with textInput := textInputUpdate m.textInput msg }

/-- bubbles `timer.Model.Timedout()`: `m.Timeout <= 0`. -/
def timerTimedout (t : TimerModel) : Bool := t.timeout ≤ 0

/-- bubbles `timer.Model.Running()`: started and not yet timed out. -/
def timerRunning (t : TimerModel) : Bool := !timerTimedout t && t.running

/-- bubbles timer Update on a TickMsg: a running timer loses one interval. -/
def timerUpdate (t : TimerModel) : TimerModel :=
  if timerRunning t then { t with timeout := t.timeout - t.interval } else t

/-- `timer.NewWithInterval(d, 100*time.Millisecond)` at instant `now` for
deadline `deadline`: `time.Until(deadline)` remaining, started. -/
def newTimer (now deadline : Int) : TimerModel :=
  { timeout := deadline - now, interval := 100, running := true }

/-- Go `strings.TrimSpace`: the string with leading and trailing
whitespace removed. -/
def trimSpace (s : String) : String :=
  String.mk (((s.data.dropWhile Char.isWhitespace).reverse.dropWhile
    Char.isWhitespace).reverse)

/-- The wsChatMsg branch of Update: append, then drop the front when the
log exceeds `chatMessagesMax`. -/
def chatAppend (log : List String) (content : String) : List String :=
  let appended := log ++ [content]
  if appended.length > chatMessagesMax then appended.drop 1 else appended

/-- The error produced by `time.Parse(time.RFC3339, ts)` on failure. -/
def parseErrorOf (ts : String) : String :=
  "parsing time " ++ ts ++ " as RFC3339: invalid"

/-- `Update` of src/main.go, parameterised over the RFC-3339 parser and the
current instant. Returns `none` when the Go code would panic (a failed
type assertion on a round-info content field). -/
def Update (parse : String → Option Int) (now : Int) (m : Model) (msg : Msg) :
    Option (Model × List Cmd) :=
  match msg with
  | .key k =>
    if k = "ctrl+c" then
      some (m, [Cmd.quit])
    else if k = "ctrl+e" then
      some (textInputStep { m with err := none } msg, [])
    else if k = "enter" then
      let trimmedInput := trimSpace m.textInput.value
      if trimmedInput = "/exit" then
        some (m, [Cmd.quit])
      else if trimmedInput = "/clear" then
        some (textInputStep
          { m with chatMessages := [],
                   textInput := { m.textInput with value := "" } } msg, [])
      else if m.connected ∧ trimmedInput ≠ "" then
        some (textInputStep m msg, [Cmd.send trimmedInput])
      else
        some (textInputStep m msg, [])
    else
      some (textInputStep m msg, [])
  | .tick =>
    some (textInputStep { m with timer := timerUpdate m.timer } msg,
      if timerRunning m.timer then [Cmd.timerTick] else [])
  | .initConn =>
    some (textInputStep
      { m with connected := true,
               textInput := { m.textInput with
                 placeholder := "message/answer here, send with Enter" } } msg,
      [Cmd.listen, Cmd.ping])
  | .errM e =>
    some (textInputStep { m with err := some e } msg, [])
  | .successSent =>
    some (textInputStep { m with textInput := { m.textInput with value := "" } } msg, [])
  | .wsPong =>
    some (textInputStep m msg, [Cmd.listen])
  | .wsErr e =>
    some (textInputStep { m with err := some e } msg, [Cmd.listen])
  | .wsChat content =>
    some (textInputStep { m with chatMessages := chatAppend m.chatMessages content } msg,
      [Cmd.listen])
  | .wsOngoingRound content =>
    match (lookupJ content "word_to_guess").bind asString with
    | none => none
    | some word =>
      match (lookupJ content "round_finish_time").bind asString with
      | none => none
      | some ts =>
        match parse ts with
        | some finish =>
          some (textInputStep
            { m with wordBoxGuide := "PLEASE GUESS!", wordBox := word,
                     timer := newTimer now finish } msg,
            [Cmd.listen, Cmd.timerInit])
        | none =>
          some (textInputStep
            { m with wordBoxGuide := "PLEASE GUESS!", wordBox := word,
                     err := some (parseErrorOf ts),
                     timer := newTimer now now } msg,
            [Cmd.listen, Cmd.timerInit])
  | .wsFinishedRound content =>
    match (lookupJ content "word_answer").bind asString with
    | none => none
    | some answer =>
      match (lookupJ content "to_next_round_time").bind asString with
      | none => none
      | some ts =>
        match parse ts with
        | some next =>
          some (textInputStep
            { m with wordBoxGuide := "TIME'S UP! THE ANSWER:", wordBox := answer,
                     timer := newTimer now next } msg,
            [Cmd.listen, Cmd.timerInit])
        | none =>
          some (textInputStep
            { m with wordBoxGuide := "TIME'S UP! THE ANSWER:", wordBox := answer,
                     err := some (parseErrorOf ts),
                     timer := newTimer now now } msg,
            [Cmd.listen, Cmd.timerInit])
  | .wsFinishedGame =>
    some (textInputStep
      { m with wordBoxGuide := "WAITING ROUND START!", wordBox := "" } msg,
      [Cmd.listen])

/-- The `default:` error of the decoder's switch, `%s`-formatting the tag. -/
def unknownTypeErr (tag : Option String) : String :=
  "unknown message type: " ++ (match tag with | some s => s | none => "<nil>")

/-- The frame-to-message mapping of `listenToWsServer` (the switch on
`v["type"]`). `none` models the panic of a failed content type assertion. -/
def decodeFrame (v : JsonObj) : Option Msg :=
  let tag := (lookupJ v "type").bind asString
  if tag = some "ChatMessage" then
    match (lookupJ v "content").bind asString with
    | some c => some (.wsChat c)
    | none => none
  else if tag = some "OngoingRoundInfo" then
    match (lookupJ v "content").bind asObj with
    | some o => some (.wsOngoingRound o)
    | none => none
  else if tag = some "FinishedRoundInfo" then
    match (lookupJ v "content").bind asObj with
    | some o => some (.wsFinishedRound o)
    | none => none
  else if tag = some "FinishedGame" then
    some .wsFinishedGame
  else if tag = some "PongMessage" then
    some .wsPong
  else
    some (.wsErr (unknownTypeErr tag))

/-- `listenToWsServer`'s thunk: a failed `wsjson.Read` yields `wsErrMsg`;
a received frame is decoded by the switch. -/
def listenToWsServer (readResult : Except String JsonObj) : Option Msg :=
  match readResult with
  | .error e => some (.wsErr ("wsjson.Read: " ++ e))
  | .ok v => decodeFrame v

/-- The rejection error text of `sendToWsServer` for a manual ping. -/
def pingRejectionMsg : String :=
  "don't ping manually! this is handled automatically by the client"

/-- `sendToWsServer`'s thunk, parameterised over the outcome of `conn.Write`
(`none` = success, `some e` = failure). Returns the list of payloads
written to the connection, and the message fed back to Update. -/
def sendToWsServer (writeErr : Option String) (msg : String) : List String × Msg :=
  if msg = "/ping" then
    ([], .errM pingRejectionMsg)
  else
    match writeErr with
    | none => ([msg], .successSent)
    | some e => ([msg], .errM ("c.Write: " ++ e))

/-- The countdown View displays: nothing (0) once the timer has timed out,
otherwise the remaining timeout (src/main.go View, lines 217-231). -/
def countdownValue (m : Model) : Int :=
  if timerTimedout m.timer then 0 else m.timer.timeout

def isListen : Cmd → Bool
  | .listen => true
  | _ => false

/-- How many reads a batch of commands issues. -/
def listenCount (cmds : List Cmd) : Nat := (cmds.filter isListen).length

/-- The messages that resolve an in-flight read: everything
`listenToWsServer` can produce. -/
def isReadResolution : Msg → Bool
  | .wsChat _ => true
  | .wsOngoingRound _ => true
  | .wsFinishedRound _ => true
  | .wsFinishedGame => true
  | .wsPong => true
  | .wsErr _ => true
  | _ => false

/-- The connect-success message, which arms the initial read. -/
def isInitConn : Msg → Bool
  | .initConn => true
  | _ => false

/-- A disconnected session whose input buffer holds "  /clear  " over a
nonempty chat log. -/
def clearInputModel : Model :=
  { initialModel with
      chatMessages := ["hi"]
      textInput := { initialModel.textInput with value := "  /clear  " } }

/-- A connected session whose input buffer holds "/ping". -/
def pingConnectedModel : Model :=
  { initialModel with
      connected := true
      textInput := { initialModel.textInput with value := "/ping" } }

/-- A disconnected session whose input buffer holds "/ping". -/
def pingDisconnectedModel : Model :=
  { initialModel with
      textInput := { initialModel.textInput with value := "/ping" } }

/-- A session in the Revealed phase whose deadline is still 5000 ms away:
the timer is running and not timed out. -/
def staleTimerModel : Model :=
  { initialModel with
      timer := { timeout := 5000, interval := 100, running := true }
      wordBoxGuide := "TIME'S UP! THE ANSWER:"
      wordBox := "apple" }

/-- Claim C10: the successful-send acknowledgment (successSentMsg) sets the
input buffer to the empty string unconditionally and changes no other
session field: the result is exactly the prior model with
`textInput.value := ""` (error, chat log, round display, timer and
connection untouched), and no command is issued. -/
theorem c10_success_sent_clears_buffer (parse : String → Option Int) (now : Int)
    (m : Model) :
    Update parse now m .successSent =
      some ({ m with textInput := { m.textInput with value := "" } }, []) := rfl

/-- Claim C8: submitting a line whose trimmed text is exactly "/clear"
empties the chat log and the input buffer, issues no command, and leaves
the round phase (guide text, displayed word, timer), the error and the
connection unchanged — in any session state, connected or not. -/
theorem c8_clear_local_command (parse : String → Option Int) (now : Int) (m : Model)
    (htrim : trimSpace m.textInput.value = "/clear") :
    Update parse now m (.key "enter") =
      some ({ m with chatMessages := [],
                     textInput := { m.textInput with value := "" } }, []) := by
  simp only [Update, htrim]
  rfl

/-- Witness for C8 at a concrete model: buffer "  /clear  " while
disconnected, with a nonempty chat log. -/
theorem c8_clear_local_command_witness :
    Update (fun _ => none) 0 clearInputModel (.key "enter") =
      some ({ clearInputModel with
                chatMessages := ([] : List String)
                textInput := { clearInputModel.textInput with value := "" } }, []) :=
  c8_clear_local_command (fun _ => none) 0 clearInputModel (by decide)

/-- Claim C9: for an outbound user payload (never "/ping"), a failed write
produces errMsg, which Update records as the session error while leaving
the input buffer (and everything else) untouched, so the user can retry;
a successful write produces successSentMsg, which clears the input
buffer. In both cases the payload was written to the connection. -/
theorem c9_write_outcomes (parse : String → Option Int) (now : Int) (m : Model)
    (payload e : String) (hp : payload ≠ "/ping") :
    sendToWsServer (some e) payload = ([payload], .errM ("c.Write: " ++ e)) ∧
    Update parse now m (.errM ("c.Write: " ++ e)) =
      some ({ m with err := some ("c.Write: " ++ e) }, []) ∧
    sendToWsServer none payload = ([payload], .successSent) ∧
    Update parse now m .successSent =
      some ({ m with textInput := { m.textInput with value := "" } }, []) := by
  refine ⟨?_, rfl, ?_, rfl⟩ <;> simp [sendToWsServer, hp]

/-- Witness for C9 at the concrete payload "hello". -/
theorem c9_write_outcomes_witness :
    sendToWsServer (some "broken pipe") "hello" =
      (["hello"], .errM ("c.Write: " ++ "broken pipe")) ∧
    Update (fun _ => none) 0 initialModel (.errM ("c.Write: " ++ "broken pipe")) =
      some ({ initialModel with err := some ("c.Write: " ++ "broken pipe") }, []) ∧
    sendToWsServer none "hello" = (["hello"], .successSent) ∧
    Update (fun _ => none) 0 initialModel .successSent =
      some ({ initialModel with
                textInput := { initialModel.textInput with value := "" } }, []) :=
  c9_write_outcomes (fun _ => none) 0 initialModel "hello" "broken pipe" (by decide)

/-- Claim C7, amended: receiving FinishedGame resets the guide text to
"WAITING ROUND START!" and clears the displayed word regardless of the
prior phase, issuing only the next read; but the timer field is left
exactly as it was and no timer command is issued, so a countdown that was
already running keeps running. -/
theorem c7_finished_game_amended (parse : String → Option Int) (now : Int)
    (m : Model) :
    Update parse now m .wsFinishedGame =
      some ({ m with wordBoxGuide := "WAITING ROUND START!", wordBox := "" },
        [Cmd.listen]) := rfl

/-- Counterexample to C7 as stated: from a Revealed phase whose deadline is
still 5000 ms away, FinishedGame moves the display to AwaitingStart but
the countdown timer is not inert — it is still running, not timed out,
and the View still shows a 5000 ms countdown. -/
theorem c7_counterexample :
    Update (fun _ => none) 0 staleTimerModel .wsFinishedGame =
      some ({ staleTimerModel with
                wordBoxGuide := "WAITING ROUND START!"
                wordBox := "" }, [Cmd.listen]) ∧
    timerTimedout staleTimerModel.timer = false ∧
    timerRunning staleTimerModel.timer = true ∧
    countdownValue { staleTimerModel with
        wordBoxGuide := "WAITING ROUND START!"
        wordBox := "" } = 5000 := by
  refine ⟨rfl, rfl, rfl, rfl⟩

/-- Claim C6, amended: when a connection exists, submitting a line whose
trimmed text is "/ping" sends it to sendToWsServer, which rejects it with
the explanatory error and writes nothing to the connection; when no
connection exists the submission is a silent no-op — no command, hence no
rejection either. In neither case is anything written. -/
theorem c6_ping_amended (parse : String → Option Int) (now : Int) (m : Model)
    (writeErr : Option String) (htrim : trimSpace m.textInput.value = "/ping") :
    (m.connected = true →
      Update parse now m (.key "enter") = some (m, [Cmd.send "/ping"])) ∧
    (m.connected = false →
      Update parse now m (.key "enter") = some (m, [])) ∧
    sendToWsServer writeErr "/ping" = ([], .errM pingRejectionMsg) ∧
    (sendToWsServer writeErr "/ping").1 = [] := by
  refine ⟨fun hc => ?_, fun hc => ?_, rfl, rfl⟩ <;> simp [Update, htrim, hc] <;> rfl

/-- Witness for the amended C6: connected model with buffer "/ping". -/
theorem c6_ping_amended_witness :
    (pingConnectedModel.connected = true →
      Update (fun _ => none) 0 pingConnectedModel (.key "enter") =
        some (pingConnectedModel, [Cmd.send "/ping"])) ∧
    (pingConnectedModel.connected = false →
      Update (fun _ => none) 0 pingConnectedModel (.key "enter") =
        some (pingConnectedModel, [])) ∧
    sendToWsServer none "/ping" = ([], .errM pingRejectionMsg) ∧
    (sendToWsServer none "/ping").1 = [] :=
  c6_ping_amended (fun _ => none) 0 pingConnectedModel none (by decide)

/-- Counterexample to C6 as stated: in the disconnected session whose
buffer holds "/ping", pressing enter issues no command at all and leaves
the error slot empty — no rejection is produced, contradicting "for every
session state (connected or not) ... yields a rejection". -/
theorem c6_counterexample :
    Update (fun _ => none) 0 pingDisconnectedModel (.key "enter") =
      some (pingDisconnectedModel, []) ∧
    pingDisconnectedModel.err = none := by
  refine ⟨?_, rfl⟩
  rfl

/-- The tags the decoder's switch recognises. -/
def knownTag (tag : Option String) : Bool :=
  tag == some "ChatMessage" || tag == some "OngoingRoundInfo" ||
  tag == some "FinishedRoundInfo" || tag == some "FinishedGame" ||
  tag == some "PongMessage"

/-- Claim C1: every message that resolves an in-flight read (and, once, the
connect-success message that arms the initial read) makes Update issue
exactly one new read command; every other message issues none, and Init
issues none; moreover every value the read thunk can deliver to the loop
is one of the read-resolution messages. -/
theorem c1_single_read (parse : String → Option Int) (now : Int) (m : Model)
    (msg : Msg) (m' : Model) (cmds : List Cmd)
    (h : Update parse now m msg = some (m', cmds)) :
    listenCount cmds = (if isReadResolution msg || isInitConn msg then 1 else 0) ∧
    listenCount InitCmds = 0 ∧
    (∀ r res, listenToWsServer r = some res → isReadResolution res = true) := by
  refine ⟨?_, rfl, ?_⟩
  · cases msg <;>
      simp only [Update] at h <;>
      (repeat' split at h) <;>
      first
        | exact Option.noConfusion h
        | (injection h with h2; injection h2 with ha hb; subst hb; rfl)
  · intro r res hres
    cases r with
    | error e =>
      simp only [listenToWsServer] at hres
      injection hres with h2
      subst h2
      rfl
    | ok v =>
      simp only [listenToWsServer, decodeFrame] at hres
      (repeat' split at hres) <;>
        first
          | exact Option.noConfusion hres
          | (injection hres with h2; subst h2; rfl)

/-- Witness for C1: a pong resolution issues exactly one new read. -/
theorem c1_single_read_witness :
    listenCount [Cmd.listen] =
      (if isReadResolution .wsPong || isInitConn .wsPong then 1 else 0) :=
  (c1_single_read (fun _ => none) 0 initialModel .wsPong initialModel
    [Cmd.listen] rfl).1

/-- Claim C2, amended: a transport read failure and an unrecognised tag are
handled without crashing — each yields a wsErrMsg whose handler records
the error as the session error while leaving the round phase (guide text,
word, timer) and everything else unchanged. A frame whose `content` has
the wrong shape or misses a required field, however, fails an unchecked
type assertion (modelled as `none` = panic; see c2_counterexample). -/
theorem c2_amended (parse : String → Option Int) (now : Int) (m : Model)
    (e : String) (v : JsonObj)
    (hv : knownTag ((lookupJ v "type").bind asString) = false) :
    listenToWsServer (.error e) = some (.wsErr ("wsjson.Read: " ++ e)) ∧
    decodeFrame v =
      some (.wsErr (unknownTypeErr ((lookupJ v "type").bind asString))) ∧
    Update parse now m (.wsErr e) =
      some ({ m with err := some e }, [Cmd.listen]) := by
  refine ⟨rfl, ?_, rfl⟩
  simp only [knownTag, Bool.or_eq_false_iff, beq_eq_false_iff_ne, ne_eq] at hv
  obtain ⟨⟨⟨⟨h1, h2⟩, h3⟩, h4⟩, h5⟩ := hv
  simp only [decodeFrame]
  rw [if_neg h1, if_neg h2, if_neg h3, if_neg h4, if_neg h5]

/-- Witness for the amended C2 at the frame with tag "Weird" and a
transport error "EOF". -/
theorem c2_amended_witness :
    listenToWsServer (.error "EOF") = some (.wsErr ("wsjson.Read: " ++ "EOF")) ∧
    decodeFrame [("type", Json.str "Weird")] =
      some (.wsErr (unknownTypeErr
        ((lookupJ [("type", Json.str "Weird")] "type").bind asString))) ∧
    Update (fun _ => none) 0 initialModel (.wsErr "EOF") =
      some ({ initialModel with err := some "EOF" }, [Cmd.listen]) :=
  c2_amended (fun _ => none) 0 initialModel "EOF" [("type", Json.str "Weird")]
    (by decide)

/-- Counterexample to C2 as stated: malformed frames CAN crash the client.
A ChatMessage frame whose content is the number 5 makes the decoder's
`v["content"].(string)` assertion panic; an OngoingRoundInfo frame with
no content makes `v["content"].(map[string]any)` panic; and a decoded
OngoingRoundInfo whose content misses "word_to_guess" makes Update's
field assertion panic. In none of these is a decode error recorded. -/
theorem c2_counterexample :
    decodeFrame [("type", Json.str "ChatMessage"), ("content", Json.num 5)] =
      none ∧
    decodeFrame [("type", Json.str "OngoingRoundInfo")] = none ∧
    Update (fun _ => none) 0 initialModel
      (.wsOngoingRound [("round_finish_time", Json.str "2099-01-01T00:00:10Z")]) =
      none := ⟨rfl, rfl, rfl⟩

/-- Claim C3: when the timestamp string of an OngoingRoundInfo or
FinishedRoundInfo event fails RFC-3339 parsing, the phase transition
still happens (guide text and word/answer are set), the deadline becomes
the current instant — a fresh timer with zero remaining, so the countdown
shows 0 — and the parse error is recorded as the session error. -/
theorem c3_bad_timestamp (parse : String → Option Int) (now : Int) (m : Model)
    (c d : JsonObj) (w a ts ts2 : String)
    (hw : (lookupJ c "word_to_guess").bind asString = some w)
    (ht : (lookupJ c "round_finish_time").bind asString = some ts)
    (hp : parse ts = none)
    (ha : (lookupJ d "word_answer").bind asString = some a)
    (ht2 : (lookupJ d "to_next_round_time").bind asString = some ts2)
    (hp2 : parse ts2 = none) :
    Update parse now m (.wsOngoingRound c) =
      some ({ m with wordBoxGuide := "PLEASE GUESS!", wordBox := w,
                     err := some (parseErrorOf ts), timer := newTimer now now },
        [Cmd.listen, Cmd.timerInit]) ∧
    Update parse now m (.wsFinishedRound d) =
      some ({ m with wordBoxGuide := "TIME'S UP! THE ANSWER:", wordBox := a,
                     err := some (parseErrorOf ts2), timer := newTimer now now },
        [Cmd.listen, Cmd.timerInit]) ∧
    (newTimer now now).timeout = 0 ∧
    countdownValue { m with
        wordBoxGuide := "PLEASE GUESS!", wordBox := w,
        err := some (parseErrorOf ts), timer := newTimer now now } = 0 ∧
    countdownValue { m with
        wordBoxGuide := "TIME'S UP! THE ANSWER:", wordBox := a,
        err := some (parseErrorOf ts2), timer := newTimer now now } = 0 := by
  refine ⟨?_, ?_, by simp [newTimer], ?_, ?_⟩
  · simp only [Update, hw, ht, hp, Option.bind_eq_bind]
    rfl
  · simp only [Update, ha, ht2, hp2, Option.bind_eq_bind]
    rfl
  · simp [countdownValue, timerTimedout, newTimer]
  · simp [countdownValue, timerTimedout, newTimer]

/-- Witness for C3 at concrete round-info contents with timestamp "oops"
that the parser rejects. -/
theorem c3_bad_timestamp_witness :
    Update (fun _ => none) 7 initialModel
      (.wsOngoingRound [("word_to_guess", Json.str "apple"),
        ("round_finish_time", Json.str "oops")]) =
      some ({ initialModel with
                wordBoxGuide := "PLEASE GUESS!", wordBox := "apple",
                err := some (parseErrorOf "oops"), timer := newTimer 7 7 },
        [Cmd.listen, Cmd.timerInit]) ∧
    Update (fun _ => none) 7 initialModel
      (.wsFinishedRound [("word_answer", Json.str "pear"),
        ("to_next_round_time", Json.str "bad")]) =
      some ({ initialModel with
                wordBoxGuide := "TIME'S UP! THE ANSWER:", wordBox := "pear",
                err := some (parseErrorOf "bad"), timer := newTimer 7 7 },
        [Cmd.listen, Cmd.timerInit]) ∧
    (newTimer 7 7).timeout = 0 ∧
    countdownValue { initialModel with
        wordBoxGuide := "PLEASE GUESS!", wordBox := "apple",
        err := some (parseErrorOf "oops"), timer := newTimer 7 7 } = 0 ∧
    countdownValue { initialModel with
        wordBoxGuide := "TIME'S UP! THE ANSWER:", wordBox := "pear",
        err := some (parseErrorOf "bad"), timer := newTimer 7 7 } = 0 :=
  c3_bad_timestamp (fun _ => none) 7 initialModel
    [("word_to_guess", Json.str "apple"), ("round_finish_time", Json.str "oops")]
    [("word_answer", Json.str "pear"), ("to_next_round_time", Json.str "bad")]
    "apple" "pear" "oops" "bad" rfl rfl rfl rfl rfl rfl

/-- Claim C4: a valid OngoingRoundInfo event moves the phase to Active: the
guide text becomes "PLEASE GUESS!", the displayed word becomes the
content's word_to_guess, a fresh timer holds round_finish_time − now,
and the displayed countdown equals that difference clamped below at 0. -/
theorem c4_ongoing_valid (parse : String → Option Int) (now : Int) (m : Model)
    (c : JsonObj) (w ts : String) (t : Int)
    (hw : (lookupJ c "word_to_guess").bind asString = some w)
    (ht : (lookupJ c "round_finish_time").bind asString = some ts)
    (hp : parse ts = some t) :
    Update parse now m (.wsOngoingRound c) =
      some ({ m with wordBoxGuide := "PLEASE GUESS!", wordBox := w,
                     timer := newTimer now t }, [Cmd.listen, Cmd.timerInit]) ∧
    (newTimer now t).timeout = t - now ∧
    countdownValue { m with
        wordBoxGuide := "PLEASE GUESS!", wordBox := w,
        timer := newTimer now t } = max 0 (t - now) := by
  refine ⟨?_, rfl, ?_⟩
  · simp only [Update, hw, ht, hp, Option.bind_eq_bind]
    rfl
  · simp only [countdownValue, timerTimedout, newTimer, decide_eq_true_eq]
    split <;> omega

/-- Witness for C4: the spec's scenario, word "apple" with a deadline 10000
ms after the current instant. -/
theorem c4_ongoing_valid_witness :
    Update (fun s => if s = "2099-01-01T00:00:10Z" then some 10500 else none)
      500 initialModel
      (.wsOngoingRound [("word_to_guess", Json.str "apple"),
        ("round_finish_time", Json.str "2099-01-01T00:00:10Z")]) =
      some ({ initialModel with
                wordBoxGuide := "PLEASE GUESS!", wordBox := "apple",
                timer := newTimer 500 10500 }, [Cmd.listen, Cmd.timerInit]) ∧
    (newTimer 500 10500).timeout = 10500 - 500 ∧
    countdownValue { initialModel with
        wordBoxGuide := "PLEASE GUESS!", wordBox := "apple",
        timer := newTimer 500 10500 } = max 0 (10500 - 500) :=
  c4_ongoing_valid (fun s => if s = "2099-01-01T00:00:10Z" then some 10500 else none)
    500 initialModel
    [("word_to_guess", Json.str "apple"),
      ("round_finish_time", Json.str "2099-01-01T00:00:10Z")]
    "apple" "2099-01-01T00:00:10Z" 10500 rfl rfl (by decide)

theorem chatAppend_length_le (L : List String) (s : String)
    (h : L.length ≤ chatMessagesMax) :
    (chatAppend L s).length ≤ chatMessagesMax := by
  simp only [chatAppend, chatMessagesMax] at *
  split
  · simp only [List.length_drop, List.length_append, List.length_cons,
      List.length_nil]
    omega
  · next hle =>
    simp only [not_lt, List.length_append, List.length_cons, List.length_nil] at hle
    simp only [List.length_append, List.length_cons, List.length_nil]
    omega

theorem chatAppend_eq (L : List String) (s : String)
    (h : L.length ≤ chatMessagesMax) :
    chatAppend L s = (if L.length = chatMessagesMax then L.drop 1 else L) ++ [s] := by
  simp only [chatAppend, chatMessagesMax] at *
  rcases eq_or_lt_of_le h with hc | hc
  · rw [if_pos (by simp only [List.length_append, List.length_cons,
        List.length_nil, hc]; omega),
      if_pos hc, List.drop_append_of_le_length (by omega)]
  · rw [if_neg (by simp only [List.length_append, List.length_cons,
        List.length_nil]; omega),
      if_neg (by omega)]

theorem chatAppend_foldl (msgs : List String) :
    ∀ L : List String, L.length ≤ chatMessagesMax →
      msgs.foldl chatAppend L =
        (L ++ msgs).drop (L.length + msgs.length - chatMessagesMax) := by
  induction msgs with
  | nil =>
    intro L hL
    simp only [List.foldl_nil, List.append_nil, List.length_nil, Nat.add_zero]
    rw [Nat.sub_eq_zero_of_le hL, List.drop_zero]
  | cons s rest ih =>
    intro L hL
    rw [List.foldl_cons, ih (chatAppend L s) (chatAppend_length_le L s hL),
      chatAppend_eq L s hL]
    simp only [chatMessagesMax] at hL ⊢
    rcases eq_or_lt_of_le hL with hc | hc
    · rw [if_pos hc]
      have hL1 : 1 ≤ L.length := by omega
      have e3 : L.length + (s :: rest).length - 12 = 1 + rest.length := by
        simp only [List.length_cons]
        omega
      have e4 : (L.drop 1 ++ [s]).length + rest.length - 12 = rest.length := by
        simp only [List.length_append, List.length_drop, List.length_cons,
          List.length_nil]
        omega
      rw [e3, e4, show L ++ s :: rest = L ++ ([s] ++ rest) from by simp,
        List.append_assoc, ← List.drop_drop,
        List.drop_append_of_le_length hL1]
    · rw [if_neg (by omega)]
      have e3 : (L ++ [s]).length + rest.length - 12 =
          L.length + (s :: rest).length - 12 := by
        simp only [List.length_append, List.length_cons, List.length_nil]
        omega
      rw [show L ++ [s] ++ rest = L ++ s :: rest from by simp, e3]

/-- Claim C5: starting from any chat log of length at most 12, any sequence
of appends keeps the length at most 12; the result of the sequence is
exactly the most recent entries of the arrival-ordered stream (a suffix
of the old log followed by the appended messages); one append places the
new message at the end, evicting exactly the oldest entry when the log
was full; and the wsChatMsg handler is exactly this append. -/
theorem c5_chat_log_ring (parse : String → Option Int) (now : Int) (m : Model)
    (L msgs : List String) (s : String) (hL : L.length ≤ chatMessagesMax) :
    (msgs.foldl chatAppend L).length ≤ chatMessagesMax ∧
    msgs.foldl chatAppend L =
      (L ++ msgs).drop (L.length + msgs.length - chatMessagesMax) ∧
    chatAppend L s = (if L.length = chatMessagesMax then L.drop 1 else L) ++ [s] ∧
    Update parse now m (.wsChat s) =
      some ({ m with chatMessages := chatAppend m.chatMessages s },
        [Cmd.listen]) := by
  refine ⟨?_, chatAppend_foldl msgs L hL, chatAppend_eq L s hL, rfl⟩
  rw [chatAppend_foldl msgs L hL]
  simp only [List.length_drop, List.length_append]
  omega

/-- Witness for C5: a full log of twelve entries, two appends, one single
append probe. -/
theorem c5_chat_log_ring_witness :
    ((["a", "b"] : List String).foldl chatAppend
        (List.replicate 12 "x")).length ≤ chatMessagesMax ∧
    (["a", "b"] : List String).foldl chatAppend (List.replicate 12 "x") =
      (List.replicate 12 "x" ++ ["a", "b"]).drop
        ((List.replicate 12 "x").length + (["a", "b"] : List String).length -
          chatMessagesMax) ∧
    chatAppend (List.replicate 12 "x") "c" =
      (if (List.replicate 12 "x").length = chatMessagesMax
        then (List.replicate 12 "x").drop 1 else List.replicate 12 "x") ++ ["c"] ∧
    Update (fun _ => none) 0 initialModel (.wsChat "c") =
      some ({ initialModel with
                chatMessages := chatAppend initialModel.chatMessages "c" },
        [Cmd.listen]) :=
  c5_chat_log_ring (fun _ => none) 0 initialModel (List.replicate 12 "x")
    ["a", "b"] "c" (by decide)

end Wordgamestui
